import Mathlib

/-!
Verification of `lib/include/srslte/common/byte_buffer.h` (namespace `srslte`):
the fixed-capacity packet buffer `byte_buffer_t`, the bit-granularity
`bit_buffer_t`, and the embedded `buffer_latency_calc` tracker.

Machine integers (`uint32_t` fields) are modelled as `Nat` with an explicit
`% 2 ^ 32` where the C++ arithmetic can wrap.  The backing array
`uint8_t buffer[...]` is modelled as a total function `Nat → Nat`; indices at
or beyond the capacity stand for memory past the end of the array, so an
out-of-bounds `memcpy` is visible as a write at such an index.
-/

namespace Srslte

/-- Modelled from the spec: `SRSLTE_MAX_BUFFER_SIZE_BYTES` is defined in
`lib/include/srslte/common/common.h`, which is not among the provided sources.
The spec's scenario uses capacity 1500 for the byte buffer's backing store. -/
def SRSLTE_MAX_BUFFER_SIZE_BYTES : Nat := 1500

/-- Modelled from the spec: `SRSLTE_BUFFER_HEADER_OFFSET` is defined in
`lib/include/srslte/common/common.h`, which is not among the provided sources.
The spec's scenario uses a default header margin of 64 bytes. -/
def SRSLTE_BUFFER_HEADER_OFFSET : Nat := 64

/-- Modelled from the spec: `SRSLTE_MAX_BUFFER_SIZE_BITS` is defined in
`lib/include/srslte/common/common.h`, which is not among the provided sources.
The spec only says the bit buffer's capacity is a bit count; we take eight
bits per byte of the byte capacity. -/
def SRSLTE_MAX_BUFFER_SIZE_BITS : Nat := 8 * SRSLTE_MAX_BUFFER_SIZE_BYTES

/-- `struct buffer_latency_calc` (with `ENABLE_TIMESTAMP` defined): a capture
flag `timestamp_is_set` and a time point `tp`.  Time points are modelled as a
`Nat` count of microseconds. -/
structure buffer_latency_calc where
  tp : Nat
  timestamp_is_set : Bool
deriving DecidableEq, Repr

namespace buffer_latency_calc

/-- The default-constructed tracker: `timestamp_is_set = false`; the time
point is value-initialized. -/
def init : buffer_latency_calc := { tp := 0, timestamp_is_set := false }

/-- `buffer_latency_calc::clear()`: sets `timestamp_is_set = false`, leaving
`tp` as it was. -/
def clear (c : buffer_latency_calc) : buffer_latency_calc :=
  { c with timestamp_is_set := false }

/-- `buffer_latency_calc::get_latency_us()`: if the timestamp was never set,
returns `microseconds{0}`; otherwise the elapsed time from `tp` to `now`.
`now` is the value of `high_resolution_clock::now()` at the call. -/
def get_latency_us (c : buffer_latency_calc) (now : Nat) : Int :=
  if c.timestamp_is_set then (now : Int) - (c.tp : Int) else 0

/-- `buffer_latency_calc::set_timestamp()` with `now` the captured clock
value (also covers the explicit-time-point overload). -/
def set_timestamp (c : buffer_latency_calc) (now : Nat) : buffer_latency_calc :=
  { c with tp := now, timestamp_is_set := true }

end buffer_latency_calc

/-- `byte_buffer_t::buffer_metadata_t`: a PDCP sequence number and a latency
tracker. -/
structure buffer_metadata_t where
  pdcp_sn : Nat
  tp : buffer_latency_calc
deriving DecidableEq, Repr

/-- The value-initialized metadata (`md = {}`). -/
def buffer_metadata_t.init : buffer_metadata_t :=
  { pdcp_sn := 0, tp := buffer_latency_calc.init }

/-- `class byte_buffer_t`.  `headroom` models the pointer difference
`msg - buffer`; `store` models the backing array `buffer` as a total function
on indices (indices `≥ SRSLTE_MAX_BUFFER_SIZE_BYTES` stand for memory past
the array's end). -/
structure byte_buffer_t where
  N_bytes : Nat
  store : Nat → Nat
  headroom : Nat
  md : buffer_metadata_t

/-- `memcpy(dst + dstStart, src, n)` byte by byte from the list `data`:
index `dstStart + j` receives `data[j]` for `j < data.length`; every other
index keeps its old contents. -/
def memcpyList (dst : Nat → Nat) (dstStart : Nat) : List Nat → Nat → Nat
  | [] => dst
  | d :: ds => memcpyList (Function.update dst dstStart d) (dstStart + 1) ds

/-- `memcpy(dst + dstStart, src + srcStart, n)` between two stores. -/
def memcpyRegion (dst : Nat → Nat) (dstStart : Nat) (src : Nat → Nat)
    (srcStart : Nat) (n : Nat) : Nat → Nat :=
  fun i => if dstStart ≤ i ∧ i < dstStart + n
    then src (srcStart + (i - dstStart)) else dst i

namespace byte_buffer_t

/-- `byte_buffer_t()`: `msg = &buffer[SRSLTE_BUFFER_HEADER_OFFSET]`,
`N_bytes = 0` (member initializer), `md` value-initialized.  `init` is the
uninitialized contents of the backing array, which the constructor does not
touch. -/
def mkDefault (init : Nat → Nat) : byte_buffer_t :=
  { N_bytes := 0, store := init, headroom := SRSLTE_BUFFER_HEADER_OFFSET,
    md := buffer_metadata_t.init }

/-- `byte_buffer_t(uint32_t size)`: `msg = &buffer[SRSLTE_BUFFER_HEADER_OFFSET]`,
`N_bytes = size`.  The constructor body performs no check of `size` against
the capacity. -/
def mkSized (size : Nat) (init : Nat → Nat) : byte_buffer_t :=
  { N_bytes := size % 2 ^ 32, store := init,
    headroom := SRSLTE_BUFFER_HEADER_OFFSET, md := buffer_metadata_t.init }

/-- `byte_buffer_t(const byte_buffer_t& buf)`: a fresh object with
`msg = &buffer[SRSLTE_BUFFER_HEADER_OFFSET]`, `md(buf.md)`,
`N_bytes(buf.N_bytes)`, then `memcpy(msg, buf.msg, N_bytes)`.  `init` is the
new object's uninitialized backing array. -/
def mkCopy (buf : byte_buffer_t) (init : Nat → Nat) : byte_buffer_t :=
  { N_bytes := buf.N_bytes,
    store := memcpyRegion init SRSLTE_BUFFER_HEADER_OFFSET buf.store
      buf.headroom buf.N_bytes,
    headroom := SRSLTE_BUFFER_HEADER_OFFSET, md := buf.md }

/-- `byte_buffer_t::operator=`: `same` models the address test
`&buf == this`; when it holds the operator returns at once, otherwise it
resets `msg` to the default offset, copies `N_bytes` and `md`, and does
`memcpy(msg, buf.msg, N_bytes)`. -/
def assign (self : byte_buffer_t) (buf : byte_buffer_t) (same : Bool) :
    byte_buffer_t :=
  if same then self else
  { N_bytes := buf.N_bytes,
    store := memcpyRegion self.store SRSLTE_BUFFER_HEADER_OFFSET buf.store
      buf.headroom buf.N_bytes,
    headroom := SRSLTE_BUFFER_HEADER_OFFSET, md := buf.md }

/-- `byte_buffer_t::clear()`: `msg` back to the default offset, `N_bytes = 0`,
`md = {}`.  The backing array is not written. -/
def clear (b : byte_buffer_t) : byte_buffer_t :=
  { b with
    N_bytes := 0
    headroom := SRSLTE_BUFFER_HEADER_OFFSET
    md := buffer_metadata_t.init }

/-- `byte_buffer_t::get_headroom()`: `msg - buffer`. -/
def get_headroom (b : byte_buffer_t) : Nat := b.headroom

/-- `byte_buffer_t::get_tailroom()`:
`sizeof(buffer) - (msg - buffer) - N_bytes`, evaluated in unsigned machine
arithmetic and returned as `uint32_t`, so it wraps modulo `2 ^ 32` when
`headroom + N_bytes` exceeds the capacity. -/
def get_tailroom (b : byte_buffer_t) : Nat :=
  ((((SRSLTE_MAX_BUFFER_SIZE_BYTES : Int) - (b.headroom : Int)
    - (b.N_bytes : Int)) % (2 ^ 32 : Int)).toNat)

/-- `byte_buffer_t::get_latency_us()`: delegates to `md.tp`. -/
def get_latency_us (b : byte_buffer_t) (now : Nat) : Int :=
  b.md.tp.get_latency_us now

/-- `byte_buffer_t::set_timestamp()`: delegates to `md.tp`. -/
def set_timestamp (b : byte_buffer_t) (now : Nat) : byte_buffer_t :=
  { b with md := { b.md with tp := b.md.tp.set_timestamp now } }

/-- `byte_buffer_t::append_bytes(buf, size)`:
`memcpy(&msg[N_bytes], buf, size); N_bytes += size;`.  There is no bounds
check; `N_bytes += size` is `uint32_t` addition. -/
def append_bytes (b : byte_buffer_t) (data : List Nat) : byte_buffer_t :=
  { b with
    store := memcpyList b.store (b.headroom + b.N_bytes) data
    N_bytes := (b.N_bytes + data.length) % 2 ^ 32 }

/-- The valid payload bytes: `msg[0] .. msg[N_bytes - 1]`. -/
def validByte (b : byte_buffer_t) (i : Nat) : Nat := b.store (b.headroom + i)

/-- The data-model invariant stated by the spec:
`headroom_offset + length <= capacity` (`0 <= headroom_offset` is inherent
in the `Nat` model). -/
def Inv (b : byte_buffer_t) : Prop :=
  b.headroom + b.N_bytes ≤ SRSLTE_MAX_BUFFER_SIZE_BYTES

instance (b : byte_buffer_t) : Decidable b.Inv := by
  unfold Inv; infer_instance

end byte_buffer_t

/-- `struct bit_buffer_t`: same shape at bit granularity, no metadata. -/
structure bit_buffer_t where
  N_bits : Nat
  store : Nat → Nat
  headroom : Nat

namespace bit_buffer_t

/-- `bit_buffer_t()`: `msg = &buffer[SRSLTE_BUFFER_HEADER_OFFSET]`,
`N_bits = 0`. -/
def mkDefault (init : Nat → Nat) : bit_buffer_t :=
  { N_bits := 0, store := init, headroom := SRSLTE_BUFFER_HEADER_OFFSET }

/-- `bit_buffer_t::operator=`: `same` models `&buf == this`; on a distinct
source it resets `msg`, copies `N_bits`, and does
`memcpy(msg, buf.msg, N_bits)`. -/
def assign (self : bit_buffer_t) (buf : bit_buffer_t) (same : Bool) :
    bit_buffer_t :=
  if same then self else
  { N_bits := buf.N_bits,
    store := memcpyRegion self.store SRSLTE_BUFFER_HEADER_OFFSET buf.store
      buf.headroom buf.N_bits,
    headroom := SRSLTE_BUFFER_HEADER_OFFSET }

end bit_buffer_t

/-- All-zero initial contents for a backing array, standing in for one
concrete uninitialized memory state. -/
def zeroStore : Nat → Nat := fun _ => 0

/-- A sample buffer holding 100 valid bytes at the default margin. -/
def bEx : byte_buffer_t := byte_buffer_t.mkSized 100 zeroStore

/-- A buffer whose payload fills the capacity exactly: its tailroom is 0. -/
def bFull : byte_buffer_t :=
  byte_buffer_t.mkSized
    (SRSLTE_MAX_BUFFER_SIZE_BYTES - SRSLTE_BUFFER_HEADER_OFFSET) zeroStore

/-- The result of `byte_buffer_t(1500)`: the sized constructor called with
the full capacity, which exceeds `capacity - default_margin`. -/
def bOver : byte_buffer_t := byte_buffer_t.mkSized 1500 zeroStore

/-- Two byte-buffer states with equal fields are equal. -/
theorem ext_of (a b : byte_buffer_t)
    (h1 : a.N_bytes = b.N_bytes) (h2 : a.store = b.store)
    (h3 : a.headroom = b.headroom) (h4 : a.md = b.md) : a = b := by
  cases a
  cases b
  simp_all

theorem two_pow_32_nat : (2 : Nat) ^ 32 = 4294967296 := by norm_num

theorem two_pow_32_int : (2 : Int) ^ 32 = 4294967296 := by norm_num

/-- Bytes of a `memcpy` model outside the written window are unchanged. -/
theorem memcpyList_get_out (data : List Nat) (f : Nat → Nat) (s i : Nat)
    (h : i < s ∨ s + data.length ≤ i) : memcpyList f s data i = f i := by
  induction data generalizing f s with
  | nil => rfl
  | cons d ds ih =>
    simp only [memcpyList]
    rw [ih (Function.update f s d) (s + 1) (by simp at h ⊢; omega)]
    have hne : i ≠ s := by simp at h; omega
    exact Function.update_noteq hne d f

/-- Byte `j` of the written window of a `memcpy` model is `data[j]`. -/
theorem memcpyList_get_in (data : List Nat) (f : Nat → Nat) (s j : Nat)
    (hj : j < data.length) : memcpyList f s data (s + j) = data.getD j 0 := by
  induction data generalizing f s j with
  | nil => simp at hj
  | cons d ds ih =>
    match j with
    | 0 =>
      simp only [memcpyList]
      rw [memcpyList_get_out ds _ (s + 1) (s + 0) (by omega)]
      simp [Function.update_same]
    | j + 1 =>
      simp only [memcpyList]
      have hs : s + (j + 1) = (s + 1) + j := by omega
      rw [hs, ih _ (s + 1) j (by simpa using hj)]
      simp

/-- Two back-to-back `memcpy`s at adjacent offsets equal one `memcpy` of the
concatenation. -/
theorem memcpyList_append (x y : List Nat) (f : Nat → Nat) (s : Nat) :
    memcpyList (memcpyList f s x) (s + x.length) y = memcpyList f s (x ++ y) := by
  induction x generalizing f s with
  | nil => simp [memcpyList]
  | cons d ds ih =>
    simp only [memcpyList, List.length_cons, List.cons_append]
    have hs : s + (ds.length + 1) = (s + 1) + ds.length := by omega
    rw [hs, ih]
    rfl

/-- Claim C1, as written, is false of the code: `append_bytes` has no
tailroom check.  At `bFull` (tailroom 0), appending one byte mutates the
length and writes the byte one past the end of the backing array (index
`SRSLTE_MAX_BUFFER_SIZE_BYTES`). -/
theorem append_overflow_mutates_cex :
    bFull.get_tailroom = 0 ∧
    (bFull.append_bytes [7]).N_bytes ≠ bFull.N_bytes ∧
    (bFull.append_bytes [7]).store SRSLTE_MAX_BUFFER_SIZE_BYTES = 7 ∧
    bFull.store SRSLTE_MAX_BUFFER_SIZE_BYTES = 0 := by
  decide

/-- Claim C1 (amended): when `count` exceeds the tailroom, `append_bytes`
does not fault and does not truncate: it still copies every byte of `data`
to `msg[N_bytes] ..` (past the array's end) and increments `N_bytes` by
`count` in `uint32_t` arithmetic — the tailroom bound is an unchecked caller
obligation. -/
theorem append_unchecked (b : byte_buffer_t) (data : List Nat)
    (h : b.get_tailroom < data.length) :
    (b.append_bytes data).N_bytes = (b.N_bytes + data.length) % 2 ^ 32 ∧
    ∀ j, j < data.length →
      (b.append_bytes data).store (b.headroom + b.N_bytes + j) = data.getD j 0 := by
  refine ⟨rfl, fun j hj => ?_⟩
  exact memcpyList_get_in data b.store (b.headroom + b.N_bytes) j hj

/-- Witness for C1's amended theorem at `bFull` and one appended byte. -/
theorem append_unchecked_witness :
    (bFull.append_bytes [7]).store (bFull.headroom + bFull.N_bytes + 0) = 7 :=
  (append_unchecked bFull [7] (by decide)).2 0 (by decide)

/-- Claim C2, as written, is false of the code: `byte_buffer_t(uint32_t)`
performs no size check, so construction with `size = 1500` (which exceeds
`capacity - default_margin`) succeeds and yields `N_bytes = 1500`, a length
that cannot fit after the default headroom. -/
theorem mkSized_oversize_succeeds_cex :
    bOver.N_bytes = 1500 ∧
    SRSLTE_MAX_BUFFER_SIZE_BYTES < SRSLTE_BUFFER_HEADER_OFFSET + 1500 := by
  decide

/-- Claim C2 (amended): the sized constructor never fails; for every
`uint32_t` size it produces a buffer with `N_bytes = size` and the default
headroom, with no validation against `capacity - default_margin`. -/
theorem mkSized_unchecked (size : Nat) (init : Nat → Nat) (h : size < 2 ^ 32) :
    (byte_buffer_t.mkSized size init).N_bytes = size ∧
    (byte_buffer_t.mkSized size init).get_headroom = SRSLTE_BUFFER_HEADER_OFFSET :=
  ⟨Nat.mod_eq_of_lt h, rfl⟩

/-- Witness for C2's amended theorem at an oversized `size = 2000`. -/
theorem mkSized_unchecked_witness :
    (byte_buffer_t.mkSized 2000 zeroStore).N_bytes = 2000 ∧
    (byte_buffer_t.mkSized 2000 zeroStore).get_headroom = SRSLTE_BUFFER_HEADER_OFFSET :=
  mkSized_unchecked 2000 zeroStore (by norm_num)

/-- Claim C3, as written, is false of the code: the sized constructor is a
public-interface operation, and `byte_buffer_t(1500)` leaves the buffer with
`headroom_offset + length > capacity`. -/
theorem inv_violated_cex : ¬ bOver.Inv := by decide

/-- Claim C3 (amended): the invariant `headroom_offset + length ≤ capacity`
holds after default construction and `clear` unconditionally, and is
preserved by the sized constructor, `append_bytes`, copy construction and
assignment provided the caller respects the sizing obligations (constructor
size fits below the default margin's remainder; append fits the tailroom;
the copied source is within capacity at the default margin); the unchecked
sized constructor and `append_bytes` can break it otherwise. -/
theorem inv_preservation :
    (∀ init, (byte_buffer_t.mkDefault init).Inv) ∧
    (∀ size init, SRSLTE_BUFFER_HEADER_OFFSET + size ≤ SRSLTE_MAX_BUFFER_SIZE_BYTES →
      (byte_buffer_t.mkSized size init).Inv) ∧
    (∀ b : byte_buffer_t, b.clear.Inv) ∧
    (∀ (b : byte_buffer_t) (data : List Nat),
      b.headroom + b.N_bytes + data.length ≤ SRSLTE_MAX_BUFFER_SIZE_BYTES →
      (b.append_bytes data).Inv) ∧
    (∀ (b : byte_buffer_t) (init : Nat → Nat),
      b.headroom = SRSLTE_BUFFER_HEADER_OFFSET → b.Inv → (b.mkCopy init).Inv) ∧
    (∀ (dst b : byte_buffer_t),
      b.headroom = SRSLTE_BUFFER_HEADER_OFFSET → b.Inv → (dst.assign b false).Inv) ∧
    (∀ b : byte_buffer_t, b.Inv → (b.assign b true).Inv) := by
  refine
    ⟨fun init => by
      show SRSLTE_BUFFER_HEADER_OFFSET + 0 ≤ SRSLTE_MAX_BUFFER_SIZE_BYTES
      decide,
    fun size init h => ?_,
    fun b => by
      show SRSLTE_BUFFER_HEADER_OFFSET + 0 ≤ SRSLTE_MAX_BUFFER_SIZE_BYTES
      decide,
    fun b data h => ?_, fun b init hb h => ?_, fun dst b hb h => ?_, fun b h => h⟩
  · show SRSLTE_BUFFER_HEADER_OFFSET + size % 2 ^ 32 ≤ SRSLTE_MAX_BUFFER_SIZE_BYTES
    rw [two_pow_32_nat]
    unfold SRSLTE_MAX_BUFFER_SIZE_BYTES SRSLTE_BUFFER_HEADER_OFFSET at h ⊢
    omega
  · show b.headroom + (b.N_bytes + data.length) % 2 ^ 32 ≤ SRSLTE_MAX_BUFFER_SIZE_BYTES
    rw [two_pow_32_nat]
    unfold SRSLTE_MAX_BUFFER_SIZE_BYTES at h ⊢
    omega
  · show SRSLTE_BUFFER_HEADER_OFFSET + b.N_bytes ≤ SRSLTE_MAX_BUFFER_SIZE_BYTES
    unfold byte_buffer_t.Inv at h
    omega
  · show SRSLTE_BUFFER_HEADER_OFFSET + b.N_bytes ≤ SRSLTE_MAX_BUFFER_SIZE_BYTES
    unfold byte_buffer_t.Inv at h
    omega

/-- Witness for C3's amended theorem: the sized-constructor and append
clauses at concrete in-bounds inputs. -/
theorem inv_preservation_witness :
    (byte_buffer_t.mkSized 100 zeroStore).Inv ∧ (bEx.append_bytes [1, 2]).Inv :=
  ⟨inv_preservation.2.1 100 zeroStore (by decide),
   inv_preservation.2.2.2.1 bEx [1, 2] (by decide)⟩

/-- Claim C4: copy construction and copy assignment from a source `b` yield
`N_bytes = b.N_bytes`, equal metadata, equal valid bytes over
`[0, N_bytes)`, and a headroom normalized to the default margin regardless
of `b`'s headroom. -/
theorem copy_assign_spec (b dst : byte_buffer_t) (init : Nat → Nat) :
    ((b.mkCopy init).N_bytes = b.N_bytes ∧
     (b.mkCopy init).md = b.md ∧
     (b.mkCopy init).get_headroom = SRSLTE_BUFFER_HEADER_OFFSET ∧
     ∀ i, i < b.N_bytes → (b.mkCopy init).validByte i = b.validByte i) ∧
    ((dst.assign b false).N_bytes = b.N_bytes ∧
     (dst.assign b false).md = b.md ∧
     (dst.assign b false).get_headroom = SRSLTE_BUFFER_HEADER_OFFSET ∧
     ∀ i, i < b.N_bytes → (dst.assign b false).validByte i = b.validByte i) := by
  have key : ∀ (g : Nat → Nat) (i : Nat), i < b.N_bytes →
      memcpyRegion g SRSLTE_BUFFER_HEADER_OFFSET b.store b.headroom b.N_bytes
        (SRSLTE_BUFFER_HEADER_OFFSET + i) = b.store (b.headroom + i) := by
    intro g i hi
    unfold memcpyRegion
    rw [if_pos ⟨Nat.le_add_right _ _, by omega⟩]
    congr 1
    omega
  exact ⟨⟨rfl, rfl, rfl, fun i hi => key init i hi⟩,
         ⟨rfl, rfl, rfl, fun i hi => key dst.store i hi⟩⟩

/-- Witness for C4 at `bEx`: a copied byte and an assigned byte agree with
the source. -/
theorem copy_assign_spec_witness :
    (bEx.mkCopy zeroStore).validByte 3 = bEx.validByte 3 ∧
    (bEx.assign bEx false).validByte 5 = bEx.validByte 5 :=
  ⟨(copy_assign_spec bEx bEx zeroStore).1.2.2.2 3 (by decide),
   (copy_assign_spec bEx bEx zeroStore).2.2.2.2 5 (by decide)⟩

/-- Claim C5, as written over all interface-reachable states, is false:
after `byte_buffer_t(1500)` (no constructor check), `get_tailroom()` wraps
modulo `2 ^ 32` and the headroom/length/tailroom sum no longer equals the
capacity. -/
theorem tailroom_wrap_cex :
    bOver.get_headroom + bOver.N_bytes + bOver.get_tailroom ≠
      SRSLTE_MAX_BUFFER_SIZE_BYTES := by
  decide

/-- Claim C5 (amended): in every state satisfying the data-model invariant
`headroom_offset + length ≤ capacity` (every state reachable under the
callers' sizing obligations), `get_headroom() + N_bytes + get_tailroom()`
equals the capacity. -/
theorem headroom_tailroom_capacity (b : byte_buffer_t) (h : b.Inv) :
    b.get_headroom + b.N_bytes + b.get_tailroom = SRSLTE_MAX_BUFFER_SIZE_BYTES := by
  unfold byte_buffer_t.Inv SRSLTE_MAX_BUFFER_SIZE_BYTES at h
  unfold byte_buffer_t.get_headroom byte_buffer_t.get_tailroom
    SRSLTE_MAX_BUFFER_SIZE_BYTES
  rw [two_pow_32_int, Int.emod_eq_of_lt (by omega) (by omega)]
  omega

/-- Witness for C5's amended theorem at `bEx`. -/
theorem headroom_tailroom_capacity_witness :
    bEx.get_headroom + bEx.N_bytes + bEx.get_tailroom = SRSLTE_MAX_BUFFER_SIZE_BYTES :=
  headroom_tailroom_capacity bEx (by decide)

/-- Claim C6: for every `size ≤ capacity - default_margin`, the sized
constructor yields `N_bytes = size` and `get_headroom()` equal to the
default margin. -/
theorem mkSized_valid_spec (size : Nat) (init : Nat → Nat)
    (h : size ≤ SRSLTE_MAX_BUFFER_SIZE_BYTES - SRSLTE_BUFFER_HEADER_OFFSET) :
    (byte_buffer_t.mkSized size init).N_bytes = size ∧
    (byte_buffer_t.mkSized size init).get_headroom = SRSLTE_BUFFER_HEADER_OFFSET := by
  refine ⟨Nat.mod_eq_of_lt ?_, rfl⟩
  rw [two_pow_32_nat]
  unfold SRSLTE_MAX_BUFFER_SIZE_BYTES SRSLTE_BUFFER_HEADER_OFFSET at h
  omega

/-- Witness for C6 at `size = 100`. -/
theorem mkSized_valid_spec_witness :
    (byte_buffer_t.mkSized 100 zeroStore).N_bytes = 100 ∧
    (byte_buffer_t.mkSized 100 zeroStore).get_headroom = SRSLTE_BUFFER_HEADER_OFFSET :=
  mkSized_valid_spec 100 zeroStore (by decide)

/-- Claim C7: appending `x` then `y` (both fitting the tailroom) produces
exactly the same buffer state as a single append of `x ++ y`. -/
theorem append_append_eq_append_concat (b : byte_buffer_t) (x y : List Nat)
    (hx : b.headroom + b.N_bytes + x.length ≤ SRSLTE_MAX_BUFFER_SIZE_BYTES)
    (hxy : b.headroom + b.N_bytes + x.length + y.length ≤ SRSLTE_MAX_BUFFER_SIZE_BYTES) :
    (b.append_bytes x).append_bytes y = b.append_bytes (x ++ y) := by
  have hmod : (b.N_bytes + x.length) % 2 ^ 32 = b.N_bytes + x.length := by
    apply Nat.mod_eq_of_lt
    rw [two_pow_32_nat]
    unfold SRSLTE_MAX_BUFFER_SIZE_BYTES at hx
    omega
  apply ext_of
  · show ((b.N_bytes + x.length) % 2 ^ 32 + y.length) % 2 ^ 32 =
      (b.N_bytes + (x ++ y).length) % 2 ^ 32
    rw [hmod, List.length_append, Nat.add_assoc]
  · show memcpyList (memcpyList b.store (b.headroom + b.N_bytes) x)
        (b.headroom + (b.N_bytes + x.length) % 2 ^ 32) y =
      memcpyList b.store (b.headroom + b.N_bytes) (x ++ y)
    rw [hmod, ← Nat.add_assoc, memcpyList_append]
  · rfl
  · rfl

/-- Witness for C7 at `bEx` with `x = [1]`, `y = [2, 3]`. -/
theorem append_append_witness :
    (bEx.append_bytes [1]).append_bytes [2, 3] = bEx.append_bytes ([1] ++ [2, 3]) :=
  append_append_eq_append_concat bEx [1] [2, 3] (by decide) (by decide)

/-- Claim C8: `clear()` resets the headroom to the default margin, the
length to 0 and the metadata to its default, and writes no byte of the
backing array. -/
theorem clear_spec (b : byte_buffer_t) :
    b.clear.get_headroom = SRSLTE_BUFFER_HEADER_OFFSET ∧
    b.clear.N_bytes = 0 ∧
    b.clear.md = buffer_metadata_t.init ∧
    ∀ i, b.clear.store i = b.store i :=
  ⟨rfl, rfl, rfl, fun _ => rfl⟩

/-- Claim C9: `get_latency_us()` on a tracker that never captured a
timestamp, or whose capture was cleared, returns zero — standalone and
through the byte buffer's delegating accessor — for every clock value. -/
theorem latency_zero_when_unset :
    (∀ now, buffer_latency_calc.init.get_latency_us now = 0) ∧
    (∀ (c : buffer_latency_calc) (now : Nat), c.clear.get_latency_us now = 0) ∧
    (∀ (init : Nat → Nat) (now : Nat),
      (byte_buffer_t.mkDefault init).get_latency_us now = 0) ∧
    (∀ (b : byte_buffer_t) (now : Nat), b.clear.get_latency_us now = 0) := by
  refine ⟨fun now => rfl, fun c now => ?_, fun init now => rfl, fun b now => rfl⟩
  simp [buffer_latency_calc.clear, buffer_latency_calc.get_latency_us]

/-- Claim C10: self-assignment (the `&buf == this` early return, modelled by
the `same` flag being true) leaves the byte buffer and the bit buffer
completely unchanged. -/
theorem self_assign_noop :
    (∀ b : byte_buffer_t, b.assign b true = b) ∧
    (∀ c : bit_buffer_t, c.assign c true = c) :=
  ⟨fun b => rfl, fun c => rfl⟩

end Srslte
